import Mathlib

/-!
Verification development for the task-orchestration subsystem of the
Google-Accounts-Mayluimu repository.

Shallow embedding of three TypeScript components:
  * `RateLimiter` (class shipped in `src/monitoring/MonitoringService.ts`),
  * `WorkerHealthMonitor` (`src/orchestration/WorkerHealthMonitor.ts`),
  * `TaskOrchestrator` (`src/orchestration/TaskOrchestrator.ts`).

Timestamps are rationals (milliseconds since epoch, as JS `Date.getTime()`),
JS floating-point arithmetic on delays and rates is modelled exactly with
rationals, and `Math.random()` values are passed as explicit parameters
`r` with `0 ≤ r < 1`.  Mutable heap objects shared between the task queue,
the worker registry and the collections of the orchestrator are modelled
as arenas keyed by numeric ids: the lists `pending`, `inProgress`,
`completed`, `failed` hold task ids, and mutating a task or worker rewrites
its unique arena entry, exactly like mutating the shared JS object.
`setTimeout` callbacks scheduled by the retry path of `failTask` are kept
in an explicit `retryTimers` list; a separate `retryTimerFire` step runs
the callback, matching the event-loop semantics.
-/

namespace GoogleAccounts

/-! ## Rate limiter (`RateLimiter` class)

Config and state mirror `RateLimitConfig` / `RateLimitState`.
`delayBetweenAccounts: [number, number]` (seconds) becomes the two fields
`delayMinS`/`delayMaxS`.  The constructor derives
`burstLimit = Math.min(10, accountsPerHour / 4)` and hard-codes
`cooldownPeriodMs = 30 * 60 * 1000` and `adaptiveRateAdjustment = true`. -/

structure RateLimitConfig where
  accountsPerDay : Nat
  accountsPerHour : Nat
  delayMinS : ℚ
  delayMaxS : ℚ
  burstLimit : ℚ
  cooldownPeriodMs : ℚ
  adaptiveRateAdjustment : Bool
deriving Repr, DecidableEq

structure RateLimitState where
  accountsCreatedToday : Nat
  accountsCreatedThisHour : Nat
  lastAccountCreation : ℚ
  currentDelay : ℚ
  isInCooldown : Bool
  cooldownUntil : Option ℚ
  successRate : ℚ
  recentAttempts : List (ℚ × Bool)
deriving Repr, DecidableEq

/-- Constructor state: counters zero, `lastAccountCreation = new Date(0)`,
`currentDelay = delayBetweenAccounts[0] * 1000`, no cooldown, rate 1.0. -/
def initialRateLimitState (cfg : RateLimitConfig) : RateLimitState :=
  { accountsCreatedToday := 0
    accountsCreatedThisHour := 0
    lastAccountCreation := 0
    currentDelay := cfg.delayMinS * 1000
    isInCooldown := false
    cooldownUntil := none
    successRate := 1
    recentAttempts := [] }

inductive DenyReason
  | cooldownActive
  | dailyLimit
  | hourlyLimit
  | minDelayNotElapsed
  | burstLimit
deriving Repr, DecidableEq

structure CanResult where
  allowed : Bool
  reason : Option DenyReason
  waitTimeMs : Option ℚ
  nextAvailableSlot : Option ℚ
deriving Repr, DecidableEq

def hourMs : ℚ := 3600000

def dayMs : ℚ := 86400000

def fiveMinMs : ℚ := 300000

/-- Next wall-clock boundary of the given period after `now`
(`getNextDayReset` / `getNextHourReset`, modelled on a UTC clock). -/
def nextBoundary (periodMs now : ℚ) : ℚ :=
  ((now / periodMs).floor + 1) * periodMs

def getNextDayReset (now : ℚ) : ℚ := nextBoundary dayMs now

def getNextHourReset (now : ℚ) : ℚ := nextBoundary hourMs now

/-- `getRecentCreations`: attempts strictly newer than `now - timeWindowMs`. -/
def getRecentCreations (s : RateLimitState) (now timeWindowMs : ℚ) : Nat :=
  (s.recentAttempts.filter (fun a => decide (now - timeWindowMs < a.1))).length

/-- The four checks of `canCreateAccount` that follow the cooldown check,
in source order: daily limit, hourly limit, minimum delay, burst limit. -/
def checkLimitsAfterCooldown (cfg : RateLimitConfig) (now : ℚ) (s : RateLimitState) :
    CanResult :=
  if cfg.accountsPerDay ≤ s.accountsCreatedToday then
    let nextDay := getNextDayReset now
    { allowed := false, reason := some .dailyLimit
      waitTimeMs := some (nextDay - now), nextAvailableSlot := some nextDay }
  else if cfg.accountsPerHour ≤ s.accountsCreatedThisHour then
    let nextHour := getNextHourReset now
    { allowed := false, reason := some .hourlyLimit
      waitTimeMs := some (nextHour - now), nextAvailableSlot := some nextHour }
  else if now - s.lastAccountCreation < s.currentDelay then
    let waitTime := s.currentDelay - (now - s.lastAccountCreation)
    { allowed := false, reason := some .minDelayNotElapsed
      waitTimeMs := some waitTime, nextAvailableSlot := some (now + waitTime) }
  else if cfg.burstLimit ≤ (getRecentCreations s now fiveMinMs : ℚ) then
    { allowed := false, reason := some .burstLimit
      waitTimeMs := some fiveMinMs, nextAvailableSlot := some (now + fiveMinMs) }
  else
    { allowed := true, reason := none, waitTimeMs := none, nextAvailableSlot := none }

/-- `canCreateAccount`.  Returns the gating result and the (possibly
mutated) state: an expired cooldown is cleared before the remaining
checks run.  The guard mirrors `if (isInCooldown && cooldownUntil)`. -/
def canCreateAccount (cfg : RateLimitConfig) (now : ℚ) (s : RateLimitState) :
    CanResult × RateLimitState :=
  match s.cooldownUntil with
  | some u =>
    if s.isInCooldown then
      if 0 < u - now then
        ({ allowed := false, reason := some .cooldownActive
           waitTimeMs := some (u - now), nextAvailableSlot := some u }, s)
      else
        let s' := { s with isInCooldown := false, cooldownUntil := none }
        (checkLimitsAfterCooldown cfg now s', s')
    else (checkLimitsAfterCooldown cfg now s, s)
  | none => (checkLimitsAfterCooldown cfg now s, s)

/-- `updateSuccessRate`: 1.0 for an empty window, else successes / total. -/
def updateSuccessRate (attempts : List (ℚ × Bool)) : ℚ :=
  if attempts.length = 0 then 1
  else ((attempts.filter (fun a => a.2)).length : ℚ) / (attempts.length : ℚ)

/-- `adjustDelayBasedOnSuccessRate` with `Math.random() = r`:
tiered base delay, jitter factor `0.8 + r * 0.4`, clamped to
`[minDelayMs, maxDelayMs]`. -/
def adjustDelayBasedOnSuccessRate (cfg : RateLimitConfig) (successRate r : ℚ) : ℚ :=
  let minDelayMs := cfg.delayMinS * 1000
  let maxDelayMs := cfg.delayMaxS * 1000
  let base :=
    if (9 : ℚ)/10 ≤ successRate then minDelayMs + (maxDelayMs - minDelayMs) * (2/10)
    else if (7 : ℚ)/10 ≤ successRate then minDelayMs + (maxDelayMs - minDelayMs) * (5/10)
    else minDelayMs + (maxDelayMs - minDelayMs) * (8/10)
  let randomFactor := (8 : ℚ)/10 + r * (4/10)
  max minDelayMs (min maxDelayMs (base * randomFactor))

/-- `getRandomDelay` (non-adaptive branch) with `Math.random() = r`. -/
def getRandomDelay (cfg : RateLimitConfig) (r : ℚ) : ℚ :=
  cfg.delayMinS * 1000 + r * (cfg.delayMaxS * 1000 - cfg.delayMinS * 1000)

/-- `triggerCooldown`; `durationMs || cooldownPeriodMs` falls back on the
default when the argument is absent or `0` (JS falsiness). -/
def triggerCooldown (cfg : RateLimitConfig) (now : ℚ) (durationMs : Option ℚ)
    (s : RateLimitState) : RateLimitState :=
  let d := match durationMs with
    | some v => if v = 0 then cfg.cooldownPeriodMs else v
    | none => cfg.cooldownPeriodMs
  { s with isInCooldown := true, cooldownUntil := some (now + d) }

/-- `checkCooldownTrigger`: automatic cooldown when the success rate drops
below 0.3 with at least 10 samples in the window. -/
def checkCooldownTrigger (cfg : RateLimitConfig) (now : ℚ) (s : RateLimitState) :
    RateLimitState :=
  if s.successRate < 3/10 ∧ 10 ≤ s.recentAttempts.length then
    triggerCooldown cfg now none s
  else s

/-- The state `recordAccountCreation` has built just before its final
`checkCooldownTrigger` call: both counters bumped, window appended and
pruned, success rate and delay recomputed. -/
def preTriggerState (cfg : RateLimitConfig) (success : Bool) (now r : ℚ)
    (s : RateLimitState) : RateLimitState :=
  let pruned := (s.recentAttempts ++ [(now, success)]).filter
    (fun a => decide (now - hourMs < a.1))
  let sr := updateSuccessRate pruned
  let delay :=
    if cfg.adaptiveRateAdjustment then adjustDelayBasedOnSuccessRate cfg sr r
    else getRandomDelay cfg r
  { s with
    accountsCreatedToday := s.accountsCreatedToday + 1
    accountsCreatedThisHour := s.accountsCreatedThisHour + 1
    lastAccountCreation := now
    recentAttempts := pruned
    successRate := sr
    currentDelay := delay }

/-- `recordAccountCreation(success)` at time `now` with `Math.random() = r`:
bump both counters, append to and prune the 60-minute window, recompute
the success rate, recompute the delay, then check the cooldown trigger. -/
def recordAccountCreation (cfg : RateLimitConfig) (success : Bool) (now r : ℚ)
    (s : RateLimitState) : RateLimitState :=
  checkCooldownTrigger cfg now (preTriggerState cfg success now r s)

/-- `getNextAvailableSlot` (also threads the state because
`canCreateAccount` may clear an expired cooldown). -/
def getNextAvailableSlot (cfg : RateLimitConfig) (now : ℚ) (s : RateLimitState) :
    ℚ × RateLimitState :=
  let res := canCreateAccount cfg now s
  if res.1.allowed then (now, res.2)
  else (res.1.nextAvailableSlot.getD (now + 60000), res.2)

/-- `resetLimits`: zero the counters, clear the cooldown and the window,
reset rate to 1.0 and delay to the configured minimum.
(`lastAccountCreation` is not touched by the source.) -/
def resetLimits (cfg : RateLimitConfig) (s : RateLimitState) : RateLimitState :=
  { s with
    accountsCreatedToday := 0
    accountsCreatedThisHour := 0
    isInCooldown := false
    cooldownUntil := none
    recentAttempts := []
    successRate := 1
    currentDelay := cfg.delayMinS * 1000 }

/-! ### Spec-side gate (for the refinement claim about `canProceed()`)

The five denial conditions of spec §4.2, each as a named predicate on the
unmodified state, and the first-match chain over them. -/

def cooldownActiveAt (now : ℚ) (s : RateLimitState) : Bool :=
  s.isInCooldown &&
    match s.cooldownUntil with
    | some u => decide (0 < u - now)
    | none => false

def cooldownExpiredAt (now : ℚ) (s : RateLimitState) : Bool :=
  s.isInCooldown &&
    match s.cooldownUntil with
    | some u => decide (u - now ≤ 0)
    | none => false

def clearCooldown (s : RateLimitState) : RateLimitState :=
  { s with isInCooldown := false, cooldownUntil := none }

def dailyLimitReached (cfg : RateLimitConfig) (s : RateLimitState) : Bool :=
  decide (cfg.accountsPerDay ≤ s.accountsCreatedToday)

def hourlyLimitReached (cfg : RateLimitConfig) (s : RateLimitState) : Bool :=
  decide (cfg.accountsPerHour ≤ s.accountsCreatedThisHour)

def minDelayNotElapsedAt (now : ℚ) (s : RateLimitState) : Bool :=
  decide (now - s.lastAccountCreation < s.currentDelay)

def burstLimitReachedAt (cfg : RateLimitConfig) (now : ℚ) (s : RateLimitState) : Bool :=
  decide (cfg.burstLimit ≤ (getRecentCreations s now fiveMinMs : ℚ))

/-- The gate as the spec words it: evaluate cooldown-active, daily-limit,
hourly-limit, min-delay-not-elapsed, burst-limit in that order and deny
with the first matching reason and its wait time / next-available
instant; allow when none matches. -/
def specCanProceed (cfg : RateLimitConfig) (now : ℚ) (s : RateLimitState) : CanResult :=
  if cooldownActiveAt now s then
    let u := s.cooldownUntil.getD 0
    { allowed := false, reason := some .cooldownActive
      waitTimeMs := some (u - now), nextAvailableSlot := some u }
  else if dailyLimitReached cfg s then
    let nextDay := getNextDayReset now
    { allowed := false, reason := some .dailyLimit
      waitTimeMs := some (nextDay - now), nextAvailableSlot := some nextDay }
  else if hourlyLimitReached cfg s then
    let nextHour := getNextHourReset now
    { allowed := false, reason := some .hourlyLimit
      waitTimeMs := some (nextHour - now), nextAvailableSlot := some nextHour }
  else if minDelayNotElapsedAt now s then
    let waitTime := s.currentDelay - (now - s.lastAccountCreation)
    { allowed := false, reason := some .minDelayNotElapsed
      waitTimeMs := some waitTime, nextAvailableSlot := some (now + waitTime) }
  else if burstLimitReachedAt cfg now s then
    { allowed := false, reason := some .burstLimit
      waitTimeMs := some fiveMinMs, nextAvailableSlot := some (now + fiveMinMs) }
  else
    { allowed := true, reason := none, waitTimeMs := none, nextAvailableSlot := none }

/-! ## Worker health monitor (`WorkerHealthMonitor`)

Only the pure metric computation `calculatePerformanceMetrics` is needed
by the claims; it is a function of the config, the current time, the
worker's last heartbeat, the worker's recovery-attempt counter and its
performance history.  (Line 532 of the source,
`this.recoveryAttempts.get(workerId) || 0 > 0`, parses in JS as
`get(workerId) || (0 > 0)`, i.e. the branch is taken iff the stored
counter is a nonzero number; the model reflects that.) -/

structure WorkerHealthConfig where
  heartbeatIntervalMs : ℚ
  heartbeatTimeoutMs : ℚ
  performanceWindowMs : ℚ
  minSuccessRate : ℚ
  maxFailureStreak : Nat
  recoveryAttempts : Nat
  recoveryDelayMs : ℚ
deriving Repr, DecidableEq

structure PerfRecord where
  timestamp : ℚ
  success : Bool
  duration : ℚ
deriving Repr, DecidableEq

inductive HealthStatus
  | healthy
  | degraded
  | unhealthy
  | recovering
deriving Repr, DecidableEq

structure WorkerPerformanceMetrics where
  successRate : ℚ
  averageTaskTime : ℚ
  failureStreak : Nat
  lastFailureTime : Option ℚ
  healthScore : ℚ
  status : HealthStatus
deriving Repr, DecidableEq

/-- The status chain at the end of `calculatePerformanceMetrics`
(line 532's `recoveryAttempts.get(workerId) || 0 > 0` parses as
`get(workerId) || (0 > 0)`, i.e. a nonzero stored counter). -/
def statusOfScore (healthScore : ℚ) (recoveryAttemptCount : Nat) : HealthStatus :=
  if 80 ≤ healthScore then HealthStatus.healthy
  else if 60 ≤ healthScore then HealthStatus.degraded
  else if 0 < recoveryAttemptCount then HealthStatus.recovering
  else HealthStatus.unhealthy

/-- `calculatePerformanceMetrics`: prune the history to the performance
window, derive success rate (1.0 when empty), average duration, the
failure streak at the tail, the sequentially-deducted health score
clamped to [0,100], and the status from the score. -/
def calculatePerformanceMetrics (cfg : WorkerHealthConfig) (now lastHeartbeat : ℚ)
    (recoveryAttemptCount : Nat) (history : List PerfRecord) :
    WorkerPerformanceMetrics :=
  let recentHistory := history.filter
    (fun h => decide (now - cfg.performanceWindowMs < h.timestamp))
  let totalTasks := recentHistory.length
  let successfulTasks := (recentHistory.filter (fun h => h.success)).length
  let successRate : ℚ :=
    if 0 < totalTasks then (successfulTasks : ℚ) / (totalTasks : ℚ) else 1
  let totalDuration := recentHistory.foldl (fun sum h => sum + h.duration) 0
  let averageTaskTime : ℚ :=
    if 0 < totalTasks then totalDuration / (totalTasks : ℚ) else 0
  let failureStreak := (recentHistory.reverse.takeWhile (fun h => !h.success)).length
  let score1 : ℚ := 100
  let score2 :=
    if successRate < cfg.minSuccessRate then
      score1 - (cfg.minSuccessRate - successRate) * 100
    else score1
  let score3 :=
    if 0 < failureStreak then score2 - min ((failureStreak : ℚ) * 10) 50 else score2
  let score4 :=
    if cfg.heartbeatTimeoutMs < now - lastHeartbeat then score3 - 30 else score3
  let healthScore := max 0 (min 100 score4)
  let status := statusOfScore healthScore recoveryAttemptCount
  { successRate := successRate
    averageTaskTime := averageTaskTime
    failureStreak := failureStreak
    lastFailureTime := (recentHistory.find? (fun h => !h.success)).map (fun h => h.timestamp)
    healthScore := healthScore
    status := status }

/-! ### Spec-side health formulas (for the claim about `computeMetrics`) -/

/-- Success rate as the spec words it: successes over total in the
window, 1.0 when the window is empty. -/
def specSuccessRate (recent : List PerfRecord) : ℚ :=
  if recent = [] then 1
  else ((recent.filter (fun h => h.success)).length : ℚ) / (recent.length : ℚ)

/-- Health score as the spec words it: 100 minus three independent
deductions (below-threshold success rate, failure streak, stale
heartbeat), clamped to [0,100]. -/
def specHealthScore (cfg : WorkerHealthConfig) (now lastHeartbeat : ℚ)
    (successRate : ℚ) (failureStreak : Nat) : ℚ :=
  let d1 := if successRate < cfg.minSuccessRate then (cfg.minSuccessRate - successRate) * 100 else 0
  let d2 := if 0 < failureStreak then min ((failureStreak : ℚ) * 10) 50 else 0
  let d3 := if cfg.heartbeatTimeoutMs < now - lastHeartbeat then 30 else 0
  max 0 (min 100 (100 - d1 - d2 - d3))

/-! ## Task orchestrator (`TaskOrchestrator`)

The arena of tasks holds every task ever created by
`scheduleAccountCreation`; the four queue collections and the
`retryTimers` list hold task ids.  The health-monitor component keeps its
own private history/recovery state that none of the queue or worker
fields below depend on, so its calls inside `completeTask`/`failTask`
are not threaded through this state. -/

inductive TaskStatus
  | queued
  | inProgress
  | completed
  | failed
deriving Repr, DecidableEq

structure CreationTask where
  id : Nat
  batchId : Nat
  attempts : Nat
  maxAttempts : Nat
  status : TaskStatus
  assignedWorker : Option Nat
  errorMessage : Option String
  createdAt : ℚ
  scheduledAt : ℚ
  completedAt : Option ℚ
deriving Repr, DecidableEq

inductive WorkerState
  | idle
  | busy
  | failed
  | offline
deriving Repr, DecidableEq

structure WorkerStatus where
  id : Nat
  status : WorkerState
  currentTask : Option Nat
  lastHeartbeat : ℚ
  tasksCompleted : Nat
  tasksSuccessful : Nat
  tasksFailed : Nat
deriving Repr, DecidableEq

structure TaskOrchestratorConfig where
  maxConcurrentTasks : Nat
  taskTimeoutMs : ℚ
  retryDelayMs : ℚ
  maxRetryAttempts : Nat
deriving Repr, DecidableEq

structure OrchState where
  tasks : List CreationTask
  pending : List Nat
  inProgress : List Nat
  completed : List Nat
  failed : List Nat
  retryTimers : List (Nat × ℚ)
  workers : List WorkerStatus
  rl : RateLimitState
  isPaused : Bool
deriving Repr, DecidableEq

def initialOrchState (rlCfg : RateLimitConfig) : OrchState :=
  { tasks := [], pending := [], inProgress := [], completed := [], failed := []
    retryTimers := [], workers := [], rl := initialRateLimitState rlCfg
    isPaused := false }

def lookupTask (s : OrchState) (tid : Nat) : Option CreationTask :=
  s.tasks.find? (fun t => t.id == tid)

/-- Mutating the (unique) shared task object with the given id. -/
def updateTask (s : OrchState) (tid : Nat) (f : CreationTask → CreationTask) : OrchState :=
  { s with tasks := s.tasks.map (fun t => if t.id == tid then f t else t) }

def lookupWorker (s : OrchState) (wid : Nat) : Option WorkerStatus :=
  s.workers.find? (fun w => w.id == wid)

/-- Mutating the (unique) shared worker object with the given id
(`this.workers.set(id, worker)` re-inserts the same object). -/
def updateWorker (s : OrchState) (wid : Nat) (f : WorkerStatus → WorkerStatus) : OrchState :=
  { s with workers := s.workers.map (fun w => if w.id == wid then f w else w) }

/-- `Map.set` on an id-keyed map modelled as an insertion-ordered id list. -/
def mapSet (l : List Nat) (x : Nat) : List Nat :=
  if x ∈ l then l else l ++ [x]

/-- `registerWorker`: fresh idle worker added to the registry. -/
def registerWorker (now : ℚ) (wid : Nat) (s : OrchState) : OrchState :=
  let w : WorkerStatus :=
    { id := wid, status := .idle, currentTask := none, lastHeartbeat := now
      tasksCompleted := 0, tasksSuccessful := 0, tasksFailed := 0 }
  if s.workers.any (fun x => x.id == wid) then
    { s with workers := s.workers.map (fun x => if x.id == wid then w else x) }
  else { s with workers := s.workers ++ [w] }

/-- One task of `scheduleAccountCreation`'s loop body. -/
def mkTask (id batchId maxAttempts : Nat) (now : ℚ) : CreationTask :=
  { id := id, batchId := batchId, attempts := 0, maxAttempts := maxAttempts
    status := .queued, assignedWorker := none, errorMessage := none
    createdAt := now, scheduledAt := now, completedAt := none }

/-- The `for` loop of `scheduleAccountCreation`: `count` fresh tasks with
consecutive ids starting at `baseId`. -/
def mkTasks : Nat → Nat → Nat → Nat → ℚ → List CreationTask
  | 0, _, _, _, _ => []
  | n + 1, batchId, baseId, maxAttempts, now =>
    mkTask baseId batchId maxAttempts now :: mkTasks n batchId (baseId + 1) maxAttempts now

/-- `scheduleAccountCreation(batchSize)`: create `batchSize` queued tasks
(ids `baseId, baseId+1, …` standing for the generated UUIDs) and append
them to the pending queue. -/
def scheduleAccountCreation (cfg : TaskOrchestratorConfig) (batchSize batchId baseId : Nat)
    (now : ℚ) (s : OrchState) : OrchState :=
  let newTasks := mkTasks batchSize batchId baseId cfg.maxRetryAttempts now
  { s with tasks := s.tasks ++ newTasks
           pending := s.pending ++ newTasks.map (fun t => t.id) }

/-- `selectOptimalWorker`: `reduce` keeping the worker with strictly
fewer completed tasks, so the earliest minimum wins. -/
def selectOptimalWorker : List WorkerStatus → Option WorkerStatus
  | [] => none
  | w :: ws => some (ws.foldl
      (fun best cur => if cur.tasksCompleted < best.tasksCompleted then cur else best) w)

def getAvailableWorkers (s : OrchState) : List WorkerStatus :=
  s.workers.filter (fun w => decide (w.status = WorkerState.idle))

/-- `distributeTask(task, availableWorkers)`: mark the task in-progress
and assigned, remove its first occurrence from pending, insert it into
the in-progress map, mark the selected worker busy. -/
def distributeTask (tid : Nat) (availableWorkers : List WorkerStatus) (s : OrchState) :
    OrchState :=
  match selectOptimalWorker availableWorkers with
  | none => s
  | some w =>
    let s1 := updateTask s tid
      (fun t => { t with assignedWorker := some w.id, status := .inProgress })
    let s2 := { s1 with pending := s1.pending.erase tid
                        inProgress := mapSet s1.inProgress tid }
    updateWorker s2 w.id (fun wk => { wk with status := .busy, currentTask := some tid })

/-- `processPendingTasks` up to and including the single dispatch of the
head of the pending queue (the executor call it then awaits is a
separate step: `completeTask` or `failTask`). -/
def processPendingTasks (cfg : TaskOrchestratorConfig) (rlCfg : RateLimitConfig)
    (now : ℚ) (s : OrchState) : OrchState :=
  if s.isPaused || s.pending.isEmpty then s
  else
    let gate := canCreateAccount rlCfg now s.rl
    let s1 := { s with rl := gate.2 }
    if !gate.1.allowed then s1
    else
      let avail := getAvailableWorkers s1
      if avail.isEmpty then s1
      else
        let tasksToProcess :=
          min (min (min s1.pending.length avail.length)
                   (cfg.maxConcurrentTasks - s1.inProgress.length)) 1
        if tasksToProcess = 0 then s1
        else
          match s1.pending.head? with
          | some tid => distributeTask tid avail s1
          | none => s1

/-- `completeTask(task, worker)`: record the success into the rate
limiter, mark the task completed, move it from in-progress to completed,
free the worker and bump its counters. -/
def completeTask (rlCfg : RateLimitConfig) (tid wid : Nat) (now r : ℚ) (s : OrchState) :
    OrchState :=
  let s0 := { s with rl := recordAccountCreation rlCfg true now r s.rl }
  let s1 := updateTask s0 tid (fun t => { t with status := .completed, completedAt := some now })
  let s2 := { s1 with inProgress := s1.inProgress.erase tid
                      completed := s1.completed ++ [tid] }
  updateWorker s2 wid (fun w =>
    { w with status := .idle, currentTask := none,
             tasksCompleted := w.tasksCompleted + 1,
             tasksSuccessful := w.tasksSuccessful + 1,
             lastHeartbeat := now })

/-- `failTask(task, worker, error)`: record the failure into the rate
limiter, bump `attempts`, free the worker (when one was passed), then
either park the task on a `setTimeout` for a paced retry
(`attempts < maxAttempts`) or move it to the failed list. -/
def failTask (cfg : TaskOrchestratorConfig) (rlCfg : RateLimitConfig) (tid : Nat)
    (wid : Option Nat) (err : String) (now r : ℚ) (s : OrchState) : OrchState :=
  let s0 := { s with rl := recordAccountCreation rlCfg false now r s.rl }
  let s1 := updateTask s0 tid
    (fun t => { t with attempts := t.attempts + 1, errorMessage := some err })
  let s2 := match wid with
    | some w => updateWorker s1 w (fun wk =>
        { wk with status := .idle, currentTask := none,
                  tasksFailed := wk.tasksFailed + 1, lastHeartbeat := now })
    | none => s1
  match lookupTask s2 tid with
  | none => s2
  | some t =>
    if t.attempts < t.maxAttempts then
      let s3 := updateTask s2 tid (fun t' => { t' with status := .queued, assignedWorker := none })
      let s4 := { s3 with inProgress := s3.inProgress.erase tid }
      let slot := getNextAvailableSlot rlCfg now s4.rl
      let delayMs := max cfg.retryDelayMs (slot.1 - now)
      { s4 with rl := slot.2, retryTimers := s4.retryTimers ++ [(tid, now + delayMs)] }
    else
      let s3 := updateTask s2 tid (fun t' => { t' with status := .failed })
      { s3 with inProgress := s3.inProgress.erase tid, failed := s3.failed ++ [tid] }

/-- The `setTimeout` callback scheduled by the retry path of `failTask`
runs: `this.taskQueue.pending.push(task)`. -/
def retryTimerFire (tid : Nat) (s : OrchState) : OrchState :=
  { s with retryTimers := s.retryTimers.eraseP (fun e => e.1 == tid)
           pending := s.pending ++ [tid] }

/-- `reassignTask`: clear the assignment, mark queued, move from
in-progress to the FRONT of the pending queue (`unshift`). -/
def reassignTask (tid : Nat) (s : OrchState) : OrchState :=
  let s1 := updateTask s tid (fun t => { t with assignedWorker := none, status := .queued })
  { s1 with inProgress := s1.inProgress.erase tid, pending := tid :: s1.pending }

/-- `attemptWorkerRecovery`: mark the worker offline. -/
def attemptWorkerRecovery (wid : Nat) (s : OrchState) : OrchState :=
  updateWorker s wid (fun w => { w with status := .offline })

/-- `handleWorkerFailure(workerId)`: mark the worker failed, reassign
every in-progress task assigned to it (in map iteration order), then
attempt recovery.  Note the source never clears `currentTask` here. -/
def handleWorkerFailure (wid : Nat) (now : ℚ) (s : OrchState) : OrchState :=
  match lookupWorker s wid with
  | none => s
  | some _ =>
    let s1 := updateWorker s wid (fun w => { w with status := .failed, lastHeartbeat := now })
    let toReassign := s1.inProgress.filter (fun tid =>
      match lookupTask s1 tid with
      | some t => t.assignedWorker == some wid
      | none => false)
    let s2 := toReassign.foldl (fun acc tid => reassignTask tid acc) s1
    attemptWorkerRecovery wid s2

/-- `handleTaskTimeout(task)`: look the assigned worker up first, escalate
it through `handleWorkerFailure`, then fail the same task with a timeout
error (`worker || {}` makes the worker update a no-op when none found). -/
def taskTimeoutMessage : String := "Task timeout"

def handleTaskTimeout (cfg : TaskOrchestratorConfig) (rlCfg : RateLimitConfig)
    (tid : Nat) (now r : ℚ) (s : OrchState) : OrchState :=
  let workerId := match lookupTask s tid with
    | some t => t.assignedWorker
    | none => none
  match workerId with
  | some wid =>
    match lookupWorker s wid with
    | some _ =>
      let s1 := handleWorkerFailure wid now s
      failTask cfg rlCfg tid (some wid) taskTimeoutMessage now r s1
    | none => failTask cfg rlCfg tid none taskTimeoutMessage now r s
  | none => failTask cfg rlCfg tid none taskTimeoutMessage now r s

structure SystemStatus where
  activeWorkers : Nat
  queuedTasks : Nat
  completedTasks : Nat
  failedTasks : Nat
deriving Repr, DecidableEq

/-- `getSystemStatus`. -/
def getSystemStatus (s : OrchState) : SystemStatus :=
  { activeWorkers := (s.workers.filter
      (fun w => decide (w.status = WorkerState.idle) || decide (w.status = WorkerState.busy))).length
    queuedTasks := s.pending.length + s.inProgress.length
    completedTasks := s.completed.length
    failedTasks := s.failed.length }

/-- Conservation check of spec §8: every created task is counted exactly
once across the four queue collections. -/
def taskConservation (s : OrchState) : Bool :=
  s.tasks.length ==
    s.pending.length + s.inProgress.length + s.completed.length + s.failed.length

/-- Worker invariant of spec §3: `status = busy ⇔ currentTask is set`. -/
def workerBusyInvariant (s : OrchState) : Bool :=
  s.workers.all (fun w => decide (w.status = WorkerState.busy) == w.currentTask.isSome)

/-- Attempts invariant of spec §8: `attempts ≤ maxAttempts` for every task. -/
def attemptsBoundInvariant (s : OrchState) : Bool :=
  s.tasks.all (fun t => t.attempts ≤ t.maxAttempts)

/-! ## Concrete executions

A permissive rate-limit configuration (high limits, zero delay range) so
the gate allows dispatch in the executions below, one worker with id 100,
and tasks with ids 1, 2, …. -/

def demoRateCfg : RateLimitConfig :=
  { accountsPerDay := 1000, accountsPerHour := 100, delayMinS := 0, delayMaxS := 0
    burstLimit := 10, cooldownPeriodMs := 1800000, adaptiveRateAdjustment := true }

def demoOrchCfg : TaskOrchestratorConfig :=
  { maxConcurrentTasks := 10, taskTimeoutMs := 60000, retryDelayMs := 5000
    maxRetryAttempts := 3 }

def demoOrchCfgOneAttempt : TaskOrchestratorConfig :=
  { demoOrchCfg with maxRetryAttempts := 1 }

/-- One task, one worker, dispatched, then the executor fails while
`attempts < maxAttempts`: the task sits on the retry `setTimeout` and is
in none of the four queue collections. -/
def retryWindowState : OrchState :=
  let s1 := registerWorker 0 100 (initialOrchState demoRateCfg)
  let s2 := scheduleAccountCreation demoOrchCfg 1 0 1 0 s1
  let s3 := processPendingTasks demoOrchCfg demoRateCfg 1000 s2
  failTask demoOrchCfg demoRateCfg 1 (some 100) "executor failure" 2000 0 s3

/-- One task dispatched to worker 100, then the worker fails while the
task is in progress. -/
def workerFailureState : OrchState :=
  let s1 := registerWorker 0 100 (initialOrchState demoRateCfg)
  let s2 := scheduleAccountCreation demoOrchCfg 1 0 1 0 s1
  let s3 := processPendingTasks demoOrchCfg demoRateCfg 1000 s2
  handleWorkerFailure 100 2000 s3

/-- Orchestrator state just before `failTask` in the two-task execution
used for the retry-ordering claim: tasks 1 and 2 scheduled, task 1
dispatched to worker 100, task 2 still pending. -/
def retryOrderPreState : OrchState :=
  let s1 := registerWorker 0 100 (initialOrchState demoRateCfg)
  let s2 := scheduleAccountCreation demoOrchCfg 2 0 1 0 s1
  processPendingTasks demoOrchCfg demoRateCfg 1000 s2

/-- …then task 1 fails retryably and its retry timer fires while task 2
is still pending. -/
def retryOrderState : OrchState :=
  retryTimerFire 1
    (failTask demoOrchCfg demoRateCfg 1 (some 100) "executor failure" 2000 0 retryOrderPreState)

/-- `maxAttempts = 1`: the dispatched task times out (`handleTaskTimeout`
reassigns it to pending via `handleWorkerFailure`, then `failTask` moves
it to the failed list — leaving it in both), the duplicate still in
pending is re-dispatched to the worker that `failTask` reset to idle,
and the executor fails again. -/
def timeoutRedispatchState : OrchState :=
  let s1 := registerWorker 0 100 (initialOrchState demoRateCfg)
  let s2 := scheduleAccountCreation demoOrchCfgOneAttempt 1 0 1 0 s1
  let s3 := processPendingTasks demoOrchCfgOneAttempt demoRateCfg 1000 s2
  let s4 := handleTaskTimeout demoOrchCfgOneAttempt demoRateCfg 1 70000 0 s3
  let s5 := processPendingTasks demoOrchCfgOneAttempt demoRateCfg 140000 s4
  failTask demoOrchCfgOneAttempt demoRateCfg 1 (some 100) "second executor failure" 150000 0 s5

/-! ## Helper lemmas shared by the theorems below -/

theorem find?_id_map_ite (tid : Nat) (f : CreationTask → CreationTask)
    (hf : ∀ t, (f t).id = t.id) :
    ∀ l : List CreationTask,
      (l.map (fun t => if t.id == tid then f t else t)).find? (fun t => t.id == tid) =
        (l.find? (fun t => t.id == tid)).map (fun t => if t.id == tid then f t else t)
  | [] => rfl
  | t :: ts => by
    by_cases h : (t.id == tid) = true
    · have hgt : (if (t.id == tid) = true then f t else t) = f t := if_pos h
      have hpf : ((f t).id == tid) = true := by rw [hf t]; exact h
      rw [List.map_cons, hgt]
      simp only [List.find?, hpf, h]
      have ht : t.id = tid := by simpa using h
      simp [ht]
    · have hb : (t.id == tid) = false := by
        simpa using h
      have hgt : (if (t.id == tid) = true then f t else t) = t := if_neg (by simp [hb])
      rw [List.map_cons, hgt]
      simp only [List.find?, hb]
      exact find?_id_map_ite tid f hf ts

theorem lookupTask_updateTask_self (s : OrchState) (tid : Nat)
    (f : CreationTask → CreationTask) (hf : ∀ t, (f t).id = t.id) :
    lookupTask (updateTask s tid f) tid =
      (lookupTask s tid).map (fun t => if t.id == tid then f t else t) :=
  find?_id_map_ite tid f hf s.tasks

theorem lookupTask_updateWorker (s : OrchState) (wid : Nat)
    (f : WorkerStatus → WorkerStatus) (tid : Nat) :
    lookupTask (updateWorker s wid f) tid = lookupTask s tid := rfl

/-! ## Claim theorems -/

/-- Claim C1: task conservation fails on the code.  Concrete run: one
task is scheduled, dispatched, and fails retryably; while its retry
`setTimeout` is pending the task is absent from all four of pending,
in-progress, completed and failed, so the four collections count 0 tasks
against 1 task ever created (and `getSystemStatus` momentarily reports a
task fewer). -/
theorem task_conservation_violated_in_retry_window :
    retryWindowState.tasks.length = 1 ∧
    retryWindowState.pending.length + retryWindowState.inProgress.length +
      retryWindowState.completed.length + retryWindowState.failed.length = 0 ∧
    retryWindowState.retryTimers.length = 1 ∧
    taskConservation retryWindowState = false := by
  refine ⟨?_, ?_, ?_, ?_⟩ <;>
  norm_num [retryWindowState, registerWorker, initialOrchState, initialRateLimitState,
    scheduleAccountCreation, mkTasks, mkTask, processPendingTasks, canCreateAccount,
    checkLimitsAfterCooldown, getRecentCreations, getAvailableWorkers,
    selectOptimalWorker, distributeTask, updateTask, updateWorker, mapSet,
    failTask, recordAccountCreation, preTriggerState, updateSuccessRate, adjustDelayBasedOnSuccessRate,
    checkCooldownTrigger, triggerCooldown, getNextAvailableSlot, lookupTask,
    taskConservation, hourMs, fiveMinMs, demoRateCfg, demoOrchCfg,
    -List.find?_map]

/-- Claim C2: the worker busy/currentTask invariant fails on the code.
Concrete run: worker 100 is busy on task 1 and `handleWorkerFailure` is
called; the worker ends `offline` (after `failed`) with `currentTask`
still set to task 1, because neither `handleWorkerFailure`,
`reassignTask` nor `attemptWorkerRecovery` clears `currentTask`. -/
theorem worker_busy_invariant_violated_by_handleWorkerFailure :
    (lookupWorker workerFailureState 100).map (fun w => (w.status, w.currentTask)) =
      some (WorkerState.offline, some 1) ∧
    workerBusyInvariant workerFailureState = false := by
  refine ⟨?_, ?_⟩ <;>
  norm_num [workerFailureState, registerWorker, initialOrchState, initialRateLimitState,
    scheduleAccountCreation, mkTasks, mkTask, processPendingTasks, canCreateAccount,
    checkLimitsAfterCooldown, getRecentCreations, getAvailableWorkers,
    selectOptimalWorker, distributeTask, updateTask, updateWorker, mapSet,
    handleWorkerFailure, reassignTask, attemptWorkerRecovery, lookupWorker, lookupTask,
    workerBusyInvariant, hourMs, fiveMinMs, demoRateCfg, demoOrchCfg,
    -List.find?_map] <;>
  decide

/-- Claim C3 (counterexample): with task 2 previously scheduled and still
pending, retried task 1 re-enters the queue at the BACK
(`pending.push` in the retry `setTimeout`), not at the front: the
resulting queue is `[2, 1]`, so previously scheduled task 2 is dequeued
first, contrary to the claimed front insertion. -/
theorem retried_task_requeued_at_back_not_front :
    retryOrderState.pending = [2, 1] ∧
    retryOrderState.pending.head? ≠ some 1 := by
  have h : retryOrderState.pending = [2, 1] := by
    norm_num [retryOrderState, retryOrderPreState, retryTimerFire, registerWorker,
      initialOrchState, initialRateLimitState,
      scheduleAccountCreation, mkTasks, mkTask, processPendingTasks, canCreateAccount,
      checkLimitsAfterCooldown, getRecentCreations, getAvailableWorkers,
      selectOptimalWorker, distributeTask, updateTask, updateWorker, mapSet,
      failTask, recordAccountCreation, preTriggerState, updateSuccessRate, adjustDelayBasedOnSuccessRate,
      checkCooldownTrigger, triggerCooldown, getNextAvailableSlot, lookupTask,
      hourMs, fiveMinMs, demoRateCfg, demoOrchCfg,
      -List.find?_map]
  exact ⟨h, by rw [h]; simp⟩

/-- Claim C3 (amended): when a task fails with `attempts + 1 <
maxAttempts`, `failTask` leaves the pending queue unchanged and schedules
a retry timer for it; when that timer fires the task is appended to the
BACK of the pending queue (after every previously scheduled task), while
`reassignTask` (used for tasks taken from a failed worker) reinserts at
the front of the pending queue. -/
theorem retry_requeue_back_reassign_front (cfg : TaskOrchestratorConfig)
    (rlCfg : RateLimitConfig) (tid : Nat) (wid : Option Nat) (err : String)
    (now r : ℚ) (s : OrchState) (t : CreationTask)
    (hfound : lookupTask s tid = some t) (hid : t.id = tid)
    (hretry : t.attempts + 1 < t.maxAttempts) :
    (failTask cfg rlCfg tid wid err now r s).pending = s.pending ∧
    (failTask cfg rlCfg tid wid err now r s).retryTimers.map (fun e => e.1) =
      s.retryTimers.map (fun e => e.1) ++ [tid] ∧
    (retryTimerFire tid (failTask cfg rlCfg tid wid err now r s)).pending =
      s.pending ++ [tid] ∧
    (reassignTask tid s).pending = tid :: s.pending := by
  have hstep : lookupTask
      (updateTask { s with rl := recordAccountCreation rlCfg false now r s.rl } tid
        (fun t => { t with attempts := t.attempts + 1, errorMessage := some err })) tid =
      some { t with attempts := t.attempts + 1, errorMessage := some err } := by
    have hgen := lookupTask_updateTask_self
      { s with rl := recordAccountCreation rlCfg false now r s.rl } tid
      (fun t => { t with attempts := t.attempts + 1, errorMessage := some err })
      (fun _ => rfl)
    have hbase : lookupTask { s with rl := recordAccountCreation rlCfg false now r s.rl } tid =
        lookupTask s tid := rfl
    rw [hbase, hfound] at hgen
    rw [hgen]
    simp [hid]
  cases wid with
  | none =>
    unfold failTask
    simp only [hstep]
    rw [if_pos (by simpa using hretry)]
    exact ⟨rfl, by simp [updateTask], by simp [retryTimerFire, updateTask],
      by simp [reassignTask, updateTask]⟩
  | some w =>
    have hstep2 : lookupTask
        (updateWorker
          (updateTask { s with rl := recordAccountCreation rlCfg false now r s.rl } tid
            (fun t => { t with attempts := t.attempts + 1, errorMessage := some err })) w
          (fun wk =>
            { wk with status := .idle, currentTask := none,
                      tasksFailed := wk.tasksFailed + 1, lastHeartbeat := now })) tid =
        some { t with attempts := t.attempts + 1, errorMessage := some err } := by
      rw [lookupTask_updateWorker]; exact hstep
    unfold failTask
    simp only [hstep2]
    rw [if_pos (by simpa using hretry)]
    exact ⟨rfl, by simp [updateTask, updateWorker],
      by simp [retryTimerFire, updateTask, updateWorker],
      by simp [reassignTask, updateTask]⟩

/-- The task object shared by the in-progress map and the arena at the
point where the retry-ordering run calls `failTask`. -/
def retryOrderTask1 : CreationTask :=
  { id := 1, batchId := 0, attempts := 0, maxAttempts := 3, status := .inProgress,
    assignedWorker := some 100, errorMessage := none, createdAt := 0, scheduledAt := 0,
    completedAt := none }

/-- Claim C3 (amended) applied at the concrete two-task run. -/
theorem retry_requeue_back_reassign_front_witness :
    lookupTask retryOrderPreState 1 = some retryOrderTask1 ∧
    retryOrderTask1.attempts + 1 < retryOrderTask1.maxAttempts ∧
    (retryTimerFire 1
        (failTask demoOrchCfg demoRateCfg 1 (some 100) "executor failure" 2000 0
          retryOrderPreState)).pending = retryOrderPreState.pending ++ [1] ∧
    (reassignTask 1 retryOrderPreState).pending = 1 :: retryOrderPreState.pending := by
  have hfound : lookupTask retryOrderPreState 1 = some retryOrderTask1 := by
    norm_num [retryOrderPreState, retryOrderTask1, registerWorker,
      initialOrchState, initialRateLimitState,
      scheduleAccountCreation, mkTasks, mkTask, processPendingTasks, canCreateAccount,
      checkLimitsAfterCooldown, getRecentCreations, getAvailableWorkers,
      selectOptimalWorker, distributeTask, updateTask, updateWorker, mapSet,
      lookupTask, hourMs, fiveMinMs, demoRateCfg, demoOrchCfg,
      -List.find?_map]
  have hmain := retry_requeue_back_reassign_front demoOrchCfg demoRateCfg 1 (some 100)
    "executor failure" 2000 0 retryOrderPreState retryOrderTask1 hfound rfl
    (by norm_num [retryOrderTask1])
  exact ⟨hfound, by norm_num [retryOrderTask1], hmain.2.2.1, hmain.2.2.2⟩

/-- Claim C4: the attempts bound fails on the code.  Concrete run with
`maxAttempts = 1`: the task times out, `handleTaskTimeout` first
reassigns it to pending (via `handleWorkerFailure`) and then fails it
permanently, leaving it duplicated in pending and failed; the pending
duplicate is re-dispatched to the worker `failTask` reset to idle and
fails again, taking `attempts` to 2 > `maxAttempts` = 1. -/
theorem attempts_exceed_maxAttempts_after_timeout_redispatch :
    (lookupTask timeoutRedispatchState 1).map (fun t => t.attempts) = some 2 ∧
    (lookupTask timeoutRedispatchState 1).map (fun t => t.maxAttempts) = some 1 ∧
    timeoutRedispatchState.failed = [1, 1] ∧
    attemptsBoundInvariant timeoutRedispatchState = false := by
  refine ⟨?_, ?_, ?_, ?_⟩ <;>
  norm_num [timeoutRedispatchState, registerWorker, initialOrchState, initialRateLimitState,
    scheduleAccountCreation, mkTasks, mkTask, processPendingTasks, canCreateAccount,
    checkLimitsAfterCooldown, getRecentCreations, getAvailableWorkers,
    selectOptimalWorker, distributeTask, updateTask, updateWorker, mapSet,
    failTask, recordAccountCreation, preTriggerState, updateSuccessRate, adjustDelayBasedOnSuccessRate,
    checkCooldownTrigger, triggerCooldown, getNextAvailableSlot,
    handleTaskTimeout, handleWorkerFailure, reassignTask, attemptWorkerRecovery,
    lookupWorker, lookupTask, attemptsBoundInvariant,
    hourMs, fiveMinMs, demoRateCfg, demoOrchCfg, demoOrchCfgOneAttempt,
    -List.find?_map]

theorem filter_active_partition (l : List WorkerStatus) :
    (l.filter (fun w => decide (w.status = WorkerState.idle) || decide (w.status = WorkerState.busy))).length +
      (l.filter (fun w => decide (w.status = WorkerState.failed) || decide (w.status = WorkerState.offline))).length
      = l.length := by
  induction l with
  | nil => rfl
  | cons w ws ih =>
    cases hw : w.status <;> simp [List.filter, hw, ih] <;> omega

/-- Claim C10: `getSystemStatus` counts in-progress tasks inside
`queuedTasks` (pending length plus in-progress size, not reported
separately), and `activeWorkers` counts exactly the idle-or-busy
workers — together with the failed-or-offline workers they partition the
registry, so failed and offline workers are excluded. -/
theorem getSystemStatus_aggregation (s : OrchState) :
    (getSystemStatus s).queuedTasks = s.pending.length + s.inProgress.length ∧
    (getSystemStatus s).completedTasks = s.completed.length ∧
    (getSystemStatus s).failedTasks = s.failed.length ∧
    (getSystemStatus s).activeWorkers = (s.workers.filter
      (fun w => decide (w.status = WorkerState.idle) || decide (w.status = WorkerState.busy))).length ∧
    (getSystemStatus s).activeWorkers + (s.workers.filter
      (fun w => decide (w.status = WorkerState.failed) || decide (w.status = WorkerState.offline))).length
      = s.workers.length :=
  ⟨rfl, rfl, rfl, rfl, filter_active_partition s.workers⟩

/-- Claim C9: `resetLimits` is idempotent — a second application is a
no-op — and the reset state has zeroed counters, no cooldown, an empty
attempts window, success rate 1.0 and the minimum configured delay. -/
theorem resetLimits_idempotent (cfg : RateLimitConfig) (s : RateLimitState) :
    resetLimits cfg (resetLimits cfg s) = resetLimits cfg s ∧
    (resetLimits cfg s).accountsCreatedToday = 0 ∧
    (resetLimits cfg s).accountsCreatedThisHour = 0 ∧
    (resetLimits cfg s).isInCooldown = false ∧
    (resetLimits cfg s).cooldownUntil = none ∧
    (resetLimits cfg s).recentAttempts = [] ∧
    (resetLimits cfg s).successRate = 1 ∧
    (resetLimits cfg s).currentDelay = cfg.delayMinS * 1000 :=
  ⟨rfl, rfl, rfl, rfl, rfl, rfl, rfl, rfl⟩

theorem checkLimits_eq_spec_chain (cfg : RateLimitConfig) (now : ℚ) (s : RateLimitState) :
    checkLimitsAfterCooldown cfg now s =
      (if dailyLimitReached cfg s then
        { allowed := false, reason := some .dailyLimit
          waitTimeMs := some (getNextDayReset now - now)
          nextAvailableSlot := some (getNextDayReset now) }
      else if hourlyLimitReached cfg s then
        { allowed := false, reason := some .hourlyLimit
          waitTimeMs := some (getNextHourReset now - now)
          nextAvailableSlot := some (getNextHourReset now) }
      else if minDelayNotElapsedAt now s then
        { allowed := false, reason := some .minDelayNotElapsed
          waitTimeMs := some (s.currentDelay - (now - s.lastAccountCreation))
          nextAvailableSlot := some (now + (s.currentDelay - (now - s.lastAccountCreation))) }
      else if burstLimitReachedAt cfg now s then
        { allowed := false, reason := some .burstLimit
          waitTimeMs := some fiveMinMs, nextAvailableSlot := some (now + fiveMinMs) }
      else
        { allowed := true, reason := none, waitTimeMs := none
          nextAvailableSlot := none }) := by
  unfold checkLimitsAfterCooldown dailyLimitReached hourlyLimitReached
    minDelayNotElapsedAt burstLimitReachedAt
  simp only [decide_eq_true_eq]

theorem checkLimits_clearCooldown (cfg : RateLimitConfig) (now : ℚ) (s : RateLimitState) :
    checkLimitsAfterCooldown cfg now (clearCooldown s) = checkLimitsAfterCooldown cfg now s :=
  rfl

theorem checkLimits_allowed_iff (cfg : RateLimitConfig) (now : ℚ) (s : RateLimitState) :
    (checkLimitsAfterCooldown cfg now s).allowed = true ↔
      (dailyLimitReached cfg s = false ∧ hourlyLimitReached cfg s = false ∧
       minDelayNotElapsedAt now s = false ∧ burstLimitReachedAt cfg now s = false) := by
  unfold checkLimitsAfterCooldown dailyLimitReached hourlyLimitReached
    minDelayNotElapsedAt burstLimitReachedAt
  split_ifs with h1 h2 h3 h4 <;> simp_all

/-- Claim C5: `canCreateAccount` refines the spec's `canProceed()` chain.
Its result is exactly the first-match evaluation of the five conditions
cooldown-active, daily-limit, hourly-limit, min-delay-not-elapsed,
burst-limit (each with the stated wait time / next available instant);
it allows exactly when none of the five conditions holds on the incoming
state; and the only state mutation is clearing an already-expired
cooldown before the remaining checks are evaluated. -/
theorem canCreateAccount_gate_order (cfg : RateLimitConfig) (now : ℚ) (s : RateLimitState) :
    (canCreateAccount cfg now s).1 = specCanProceed cfg now s ∧
    ((canCreateAccount cfg now s).1.allowed = true ↔
      (cooldownActiveAt now s = false ∧ dailyLimitReached cfg s = false ∧
       hourlyLimitReached cfg s = false ∧ minDelayNotElapsedAt now s = false ∧
       burstLimitReachedAt cfg now s = false)) ∧
    (canCreateAccount cfg now s).2 =
      (if cooldownExpiredAt now s then clearCooldown s else s) := by
  cases hcu : s.cooldownUntil with
  | none =>
    have hact : cooldownActiveAt now s = false := by
      simp [cooldownActiveAt, hcu]
    have hexp : cooldownExpiredAt now s = false := by
      simp [cooldownExpiredAt, hcu]
    refine ⟨?_, ?_, ?_⟩
    · simp only [canCreateAccount, hcu, specCanProceed, hact, Bool.false_eq_true, if_false]
      exact checkLimits_eq_spec_chain cfg now s
    · simp only [canCreateAccount, hcu, hact]
      simpa using checkLimits_allowed_iff cfg now s
    · simp [canCreateAccount, hcu, hexp]
  | some u =>
    by_cases hin : s.isInCooldown = true
    · by_cases hlt : 0 < u - now
      · have hact : cooldownActiveAt now s = true := by
          simp [cooldownActiveAt, hcu, hin, hlt]
        have hexp : cooldownExpiredAt now s = false := by
          simp [cooldownExpiredAt, hcu, hin]
          linarith
        refine ⟨?_, ?_, ?_⟩
        · simp [canCreateAccount, hcu, hin, hlt, specCanProceed, hact]
        · simp [canCreateAccount, hcu, hin, hlt, hact]
        · simp [canCreateAccount, hcu, hin, hlt, hexp]
      · have hact : cooldownActiveAt now s = false := by
          simp [cooldownActiveAt, hcu, hin, hlt]
        have hexp : cooldownExpiredAt now s = true := by
          simp [cooldownExpiredAt, hcu, hin]
          linarith [not_lt.mp hlt]
        refine ⟨?_, ?_, ?_⟩
        · simp only [canCreateAccount, hcu, hin, if_true, hlt, if_false,
            specCanProceed, hact, Bool.false_eq_true]
          rw [show ({ s with isInCooldown := false, cooldownUntil := none } : RateLimitState)
              = clearCooldown s from rfl, checkLimits_clearCooldown]
          simpa using checkLimits_eq_spec_chain cfg now s
        · simp only [canCreateAccount, hcu, hin, if_true, hlt, if_false]
          rw [show ({ s with isInCooldown := false, cooldownUntil := none } : RateLimitState)
              = clearCooldown s from rfl, checkLimits_clearCooldown]
          simp only [hact, true_and]
          simpa using checkLimits_allowed_iff cfg now s
        · simp [canCreateAccount, hcu, hin, hlt, hexp, clearCooldown]
    · have hin' : s.isInCooldown = false := by
        simpa using hin
      have hact : cooldownActiveAt now s = false := by
        simp [cooldownActiveAt, hin']
      have hexp : cooldownExpiredAt now s = false := by
        simp [cooldownExpiredAt, hin']
      refine ⟨?_, ?_, ?_⟩
      · simp only [canCreateAccount, hcu, hin', Bool.false_eq_true, if_false,
          specCanProceed, hact]
        exact checkLimits_eq_spec_chain cfg now s
      · simp only [canCreateAccount, hcu, hin', Bool.false_eq_true, if_false, hact]
        simpa using checkLimits_allowed_iff cfg now s
      · simp [canCreateAccount, hcu, hin', hexp]

theorem checkCooldownTrigger_today (cfg : RateLimitConfig) (now : ℚ) (s : RateLimitState) :
    (checkCooldownTrigger cfg now s).accountsCreatedToday = s.accountsCreatedToday := by
  unfold checkCooldownTrigger triggerCooldown
  split_ifs <;> rfl

theorem checkCooldownTrigger_hour (cfg : RateLimitConfig) (now : ℚ) (s : RateLimitState) :
    (checkCooldownTrigger cfg now s).accountsCreatedThisHour = s.accountsCreatedThisHour := by
  unfold checkCooldownTrigger triggerCooldown
  split_ifs <;> rfl

theorem checkCooldownTrigger_attempts (cfg : RateLimitConfig) (now : ℚ) (s : RateLimitState) :
    (checkCooldownTrigger cfg now s).recentAttempts = s.recentAttempts := by
  unfold checkCooldownTrigger triggerCooldown
  split_ifs <;> rfl

theorem checkCooldownTrigger_rate (cfg : RateLimitConfig) (now : ℚ) (s : RateLimitState) :
    (checkCooldownTrigger cfg now s).successRate = s.successRate := by
  unfold checkCooldownTrigger triggerCooldown
  split_ifs <;> rfl

theorem checkCooldownTrigger_delay (cfg : RateLimitConfig) (now : ℚ) (s : RateLimitState) :
    (checkCooldownTrigger cfg now s).currentDelay = s.currentDelay := by
  unfold checkCooldownTrigger triggerCooldown
  split_ifs <;> rfl

/-- The delay tier of spec §4.2: 0.2 when the success rate is at least
0.9, 0.5 when it is at least 0.7, 0.8 otherwise. -/
def specDelayFactor (sr : ℚ) : ℚ :=
  if 9/10 ≤ sr then 2/10 else if 7/10 ≤ sr then 5/10 else 8/10

/-- The postcondition of `recordOutcome(success)` as the spec words it:
both counters bumped by one, the attempt appended to the pruned
60-minute window, the success rate recomputed over that (necessarily
nonempty) window, and the new delay equal to
`minDelay + f × (maxDelay − minDelay)` for the tier factor `f`,
times a jitter factor in [0.8, 1.2], clamped to `[minDelay, maxDelay]`. -/
def recordOutcomeClaim (cfg : RateLimitConfig) (success : Bool) (now r : ℚ)
    (s : RateLimitState) : Prop :=
  let s' := recordAccountCreation cfg success now r s
  let window := (s.recentAttempts ++ [(now, success)]).filter
    (fun a => decide (now - hourMs < a.1))
  s'.accountsCreatedToday = s.accountsCreatedToday + 1 ∧
  s'.accountsCreatedThisHour = s.accountsCreatedThisHour + 1 ∧
  s'.recentAttempts = window ∧
  window ≠ [] ∧
  s'.successRate = ((window.filter (fun a => a.2)).length : ℚ) / (window.length : ℚ) ∧
  ∃ j : ℚ, 4/5 ≤ j ∧ j ≤ 6/5 ∧
    s'.currentDelay = max (cfg.delayMinS * 1000) (min (cfg.delayMaxS * 1000)
      ((cfg.delayMinS * 1000 +
        specDelayFactor s'.successRate * (cfg.delayMaxS * 1000 - cfg.delayMinS * 1000)) * j))

/-- Claim C6: every `recordAccountCreation(success)` call (for either
outcome) satisfies the spec's `recordOutcome` postcondition, with the
jitter factor `0.8 + 0.4 × Math.random()` landing in [0.8, 1.2]. -/
theorem recordAccountCreation_postcondition (cfg : RateLimitConfig) (success : Bool)
    (now r : ℚ) (s : RateLimitState) (hadapt : cfg.adaptiveRateAdjustment = true)
    (hr0 : 0 ≤ r) (hr1 : r < 1) :
    recordOutcomeClaim cfg success now r s := by
  have hmem : (now, success) ∈ (s.recentAttempts ++ [(now, success)]).filter
      (fun a => decide (now - hourMs < a.1)) := by
    refine List.mem_filter.mpr ⟨List.mem_append_right _ (List.mem_singleton_self _), ?_⟩
    norm_num [hourMs]
  have hwne : (s.recentAttempts ++ [(now, success)]).filter
      (fun a => decide (now - hourMs < a.1)) ≠ [] :=
    List.ne_nil_of_mem hmem
  simp only [recordOutcomeClaim, recordAccountCreation, preTriggerState,
    checkCooldownTrigger_today, checkCooldownTrigger_hour, checkCooldownTrigger_attempts,
    checkCooldownTrigger_rate, checkCooldownTrigger_delay]
  refine ⟨trivial, trivial, trivial, hwne, ?_, ?_⟩
  · unfold updateSuccessRate
    rw [if_neg (by simpa [List.length_eq_zero] using hwne)]
  · refine ⟨(8 : ℚ)/10 + r * (4/10), by nlinarith, by nlinarith, ?_⟩
    simp only [hadapt, if_true]
    unfold adjustDelayBasedOnSuccessRate specDelayFactor
    split_ifs <;> ring_nf

/-- A configuration as the `RateLimiter` constructor builds it from a
system config with 50 accounts/day, 10/hour and a 30–120 s delay range:
`burstLimit = min(10, 10/4)`, 30-minute cooldown, adaptive on. -/
def witnessRateCfg : RateLimitConfig :=
  { accountsPerDay := 50, accountsPerHour := 10, delayMinS := 30, delayMaxS := 120
    burstLimit := 5/2, cooldownPeriodMs := 1800000, adaptiveRateAdjustment := true }

/-- Claim C6 applied at a concrete call: fresh limiter, successful
attempt at time 0, `Math.random() = 0`. -/
theorem recordAccountCreation_postcondition_witness :
    witnessRateCfg.adaptiveRateAdjustment = true ∧ (0 : ℚ) ≤ 0 ∧ (0 : ℚ) < 1 ∧
    recordOutcomeClaim witnessRateCfg true 0 0 (initialRateLimitState witnessRateCfg) :=
  ⟨rfl, le_refl 0, by norm_num,
    recordAccountCreation_postcondition witnessRateCfg true 0 0
      (initialRateLimitState witnessRateCfg) rfl (le_refl 0) (by norm_num)⟩

theorem checkCooldownTrigger_fires (cfg : RateLimitConfig) (now : ℚ) (s : RateLimitState)
    (h1 : s.successRate < 3/10) (h2 : 10 ≤ s.recentAttempts.length) :
    checkCooldownTrigger cfg now s = triggerCooldown cfg now none s := by
  unfold checkCooldownTrigger
  rw [if_pos ⟨h1, h2⟩]

theorem checkCooldownTrigger_output_cooldown (cfg : RateLimitConfig) (now : ℚ)
    (s1 : RateLimitState)
    (h1 : (checkCooldownTrigger cfg now s1).successRate < 3/10)
    (h2 : 10 ≤ (checkCooldownTrigger cfg now s1).recentAttempts.length) :
    (checkCooldownTrigger cfg now s1).isInCooldown = true ∧
    (checkCooldownTrigger cfg now s1).cooldownUntil = some (now + cfg.cooldownPeriodMs) := by
  rw [checkCooldownTrigger_rate] at h1
  rw [checkCooldownTrigger_attempts] at h2
  rw [checkCooldownTrigger_fires cfg now s1 h1 h2]
  exact ⟨rfl, rfl⟩

/-- Claim C7: when a `recordAccountCreation` call leaves the window
success rate below 0.3 with at least 10 samples, the automatic cooldown
fires for `cooldownPeriodMs` (constructor default 30 minutes), and every
`canCreateAccount` call strictly before the expiry is denied with the
cooldown reason, the remaining cooldown as wait time and the expiry as
the next available slot. -/
theorem cooldown_trigger_and_deny (cfg : RateLimitConfig) (success : Bool)
    (now r now' : ℚ) (s : RateLimitState)
    (hsr : (recordAccountCreation cfg success now r s).successRate < 3/10)
    (hlen : 10 ≤ (recordAccountCreation cfg success now r s).recentAttempts.length)
    (hbefore : now' < now + cfg.cooldownPeriodMs) :
    (recordAccountCreation cfg success now r s).isInCooldown = true ∧
    (recordAccountCreation cfg success now r s).cooldownUntil =
      some (now + cfg.cooldownPeriodMs) ∧
    (canCreateAccount cfg now' (recordAccountCreation cfg success now r s)).1 =
      { allowed := false, reason := some .cooldownActive
        waitTimeMs := some (now + cfg.cooldownPeriodMs - now')
        nextAvailableSlot := some (now + cfg.cooldownPeriodMs) } := by
  have hre : recordAccountCreation cfg success now r s
      = checkCooldownTrigger cfg now (preTriggerState cfg success now r s) := rfl
  rw [hre] at hsr hlen ⊢
  obtain ⟨hic, hcu⟩ := checkCooldownTrigger_output_cooldown cfg now
    (preTriggerState cfg success now r s) hsr hlen
  refine ⟨hic, hcu, ?_⟩
  simp only [canCreateAccount, hcu, hic, eq_self_iff_true, if_true]
  rw [if_pos (by linarith)]

/-- The rate-limiter state just before the attempt that trips the
automatic cooldown: ten failed attempts already in the window. -/
def witnessFailState : RateLimitState :=
  { accountsCreatedToday := 10, accountsCreatedThisHour := 10, lastAccountCreation := 9
    currentDelay := 30000, isInCooldown := false, cooldownUntil := none
    successRate := 0
    recentAttempts := [(0, false), (1, false), (2, false), (3, false), (4, false),
      (5, false), (6, false), (7, false), (8, false), (9, false)] }

/-- Claim C7 applied at a concrete call: an 11th consecutive failure at
time 10 trips the cooldown and the gate denies at time 1000. -/
theorem cooldown_trigger_and_deny_witness :
    (recordAccountCreation witnessRateCfg false 10 0 witnessFailState).successRate < 3/10 ∧
    10 ≤ (recordAccountCreation witnessRateCfg false 10 0 witnessFailState).recentAttempts.length ∧
    (1000 : ℚ) < 10 + witnessRateCfg.cooldownPeriodMs ∧
    ((recordAccountCreation witnessRateCfg false 10 0 witnessFailState).isInCooldown = true ∧
     (recordAccountCreation witnessRateCfg false 10 0 witnessFailState).cooldownUntil =
       some (10 + witnessRateCfg.cooldownPeriodMs) ∧
     (canCreateAccount witnessRateCfg 1000
        (recordAccountCreation witnessRateCfg false 10 0 witnessFailState)).1 =
       { allowed := false, reason := some .cooldownActive
         waitTimeMs := some (10 + witnessRateCfg.cooldownPeriodMs - 1000)
         nextAvailableSlot := some (10 + witnessRateCfg.cooldownPeriodMs) }) := by
  have h1 : (recordAccountCreation witnessRateCfg false 10 0 witnessFailState).successRate
      < 3/10 := by
    norm_num [recordAccountCreation, preTriggerState, updateSuccessRate, checkCooldownTrigger,
      triggerCooldown, adjustDelayBasedOnSuccessRate, witnessFailState, witnessRateCfg,
      hourMs]
  have h2 : 10 ≤
      (recordAccountCreation witnessRateCfg false 10 0 witnessFailState).recentAttempts.length := by
    norm_num [recordAccountCreation, preTriggerState, updateSuccessRate, checkCooldownTrigger,
      triggerCooldown, adjustDelayBasedOnSuccessRate, witnessFailState, witnessRateCfg,
      hourMs]
  have h3 : (1000 : ℚ) < 10 + witnessRateCfg.cooldownPeriodMs := by
    norm_num [witnessRateCfg]
  exact ⟨h1, h2, h3, cooldown_trigger_and_deny witnessRateCfg false 10 0 1000
    witnessFailState h1 h2 h3⟩

theorem statusOfScore_healthy_iff (hs : ℚ) (ra : Nat) :
    statusOfScore hs ra = HealthStatus.healthy ↔ 80 ≤ hs := by
  unfold statusOfScore
  split_ifs with h1 h2 h3
  · simp [h1]
  · simp [h1]
  · simp [h1]
  · simp [h1]

theorem statusOfScore_degraded_iff (hs : ℚ) (ra : Nat) :
    statusOfScore hs ra = HealthStatus.degraded ↔ (60 ≤ hs ∧ hs < 80) := by
  unfold statusOfScore
  split_ifs with h1 h2 h3
  · simp [not_lt.mpr h1]
  · simp [h2, not_le.mp h1]
  · simp [h2]
  · simp [h2]

/-- Claim C8: `calculatePerformanceMetrics` computes the success rate as
successes over total in the pruned window (1.0 when empty), the health
score as 100 minus the spec's three deductions clamped to [0,100], and
derives `healthy` exactly for scores ≥ 80 and `degraded` exactly for
scores in [60, 80). -/
theorem calculatePerformanceMetrics_spec (cfg : WorkerHealthConfig)
    (now lastHeartbeat : ℚ) (recoveryAttemptCount : Nat) (history : List PerfRecord) :
    (calculatePerformanceMetrics cfg now lastHeartbeat recoveryAttemptCount history).successRate
      = specSuccessRate (history.filter
          (fun h => decide (now - cfg.performanceWindowMs < h.timestamp))) ∧
    (calculatePerformanceMetrics cfg now lastHeartbeat recoveryAttemptCount history).healthScore
      = specHealthScore cfg now lastHeartbeat
          (calculatePerformanceMetrics cfg now lastHeartbeat recoveryAttemptCount history).successRate
          (calculatePerformanceMetrics cfg now lastHeartbeat recoveryAttemptCount history).failureStreak ∧
    ((calculatePerformanceMetrics cfg now lastHeartbeat recoveryAttemptCount history).status
        = HealthStatus.healthy ↔
      80 ≤ (calculatePerformanceMetrics cfg now lastHeartbeat recoveryAttemptCount history).healthScore) ∧
    ((calculatePerformanceMetrics cfg now lastHeartbeat recoveryAttemptCount history).status
        = HealthStatus.degraded ↔
      (60 ≤ (calculatePerformanceMetrics cfg now lastHeartbeat recoveryAttemptCount history).healthScore ∧
       (calculatePerformanceMetrics cfg now lastHeartbeat recoveryAttemptCount history).healthScore < 80)) := by
  simp only [calculatePerformanceMetrics]
  set recent := history.filter (fun h => decide (now - cfg.performanceWindowMs < h.timestamp))
    with hrec
  refine ⟨?_, ?_, ?_, ?_⟩
  · unfold specSuccessRate
    by_cases h : recent = []
    · simp [h]
    · rw [if_neg h, if_pos (List.length_pos.mpr h)]
  · unfold specHealthScore
    split_ifs <;> ring_nf
  · exact statusOfScore_healthy_iff _ _
  · exact statusOfScore_degraded_iff _ _

end GoogleAccounts
